import Mathlib

/-!
Verification of the client-side WebSocket scratch snippets of the
`bevy-wasm` repository.

The repository contains several near-duplicate JS modules, each opening a
client socket and exposing a guarded `sendPosition`, with variations in how
inbound messages are stored (latest-only vs. buffered) and whether an
identifier token is sent on open.  We embed each variant as a pure state
transformer over an explicit module state, and the browser WebSocket API as
a small record with WHATWG-standard `send` semantics.
-/

namespace BevyWasm

/-- WebIDL interface constant `WebSocket.CONNECTING` (WHATWG standard).
Per WebIDL, interface constants are exposed both on the interface object
and, through the prototype, on every instance. -/
def WebSocket.CONNECTING : Nat := 0

/-- WebIDL interface constant `WebSocket.OPEN` (WHATWG standard). -/
def WebSocket.OPEN : Nat := 1

/-- WebIDL interface constant `WebSocket.CLOSING` (WHATWG standard). -/
def WebSocket.CLOSING : Nat := 2

/-- WebIDL interface constant `WebSocket.CLOSED` (WHATWG standard). -/
def WebSocket.CLOSED : Nat := 3

/-- A frame handed to `send`.  The snippets pass either a string or (in one
variant) a raw `{x, y}` object. -/
inductive Frame where
  | text (s : String)
  | rawObject (x y : Int)
deriving DecidableEq, Repr

/-- JavaScript exceptions the embedded code can raise. -/
inductive JSError where
  | typeError
  | invalidStateError
deriving DecidableEq, Repr

/-- A WebSocket instance: its `readyState` and the frames it has
transmitted, in transmission order. -/
structure WS where
  readyState : Nat
  sent : List Frame
deriving DecidableEq, Repr

/-- The `send` method of the WebSocket API, modelled from the WHATWG standard (browser
environment, not repository code): when `readyState` is CONNECTING the call
throws `InvalidStateError`; when the connection is CLOSING or CLOSED the
data is discarded; when OPEN the frame is transmitted. -/
def wsSend (ws : WS) (f : Frame) : Except JSError WS :=
  if ws.readyState = WebSocket.CONNECTING then .error .invalidStateError
  else if ws.readyState = WebSocket.OPEN then .ok { ws with sent := ws.sent ++ [f] }
  else .ok ws

/-- Embedding of `JSON.stringify({ x, y })` for integer-valued `x` and `y`: the string
`\x7b"x":<x>,"y":<y>\x7d`. -/
def jsonStringifyXY (x y : Int) : String :=
  "\x7b\"x\":" ++ toString x ++ ",\"y\":" ++ toString y ++ "\x7d"

/-- Embedding of `n.toString(16)` for a single hex digit `n < 16`: digits `0`-`9` then
lowercase letters `a`-`f`. -/
def toHexChar (n : Nat) : Char :=
  if n < 10 then Char.ofNat (48 + n) else Char.ofNat (87 + n)

/-- The arrow function `genRanHex`: `size => [...Array(size)].map(() =>
Math.floor(Math.random() * 16).toString(16)).join('')`.  The successive
values of `Math.floor(Math.random() * 16)` — each a natural number below 16,
since `Math.random()` lies in `[0, 1)` — are supplied as `draws`. -/
def genRanHex (size : Nat) (draws : Nat → Nat) : String :=
  String.join ((List.range size).map (fun i => String.mk [toHexChar (draws i)]))

/-- A character is a lowercase hexadecimal digit: `0`-`9` or `a`-`f`. -/
def isLowerHexDigit (c : Char) : Bool :=
  (('0' ≤ c && c ≤ '9') || ('a' ≤ c && c ≤ 'f'))

/-- JavaScript truthiness of a (non-NaN) number: falsy iff zero. -/
def jsNumTruthy (n : Nat) : Bool :=
  n ≠ 0

/-! ## Latest-only variant (`src/client/js/foo.js`, first module)

Module-level state: `let websocket;` (undefined before `createWebSocket`)
and `let latestMessage;` (undefined before the first inbound message). -/

namespace Foo

/-- Module state of the latest-only variant: the `websocket` handle and the
`latestMessage` variable, both initially undefined (`none`). -/
structure State where
  websocket : Option WS
  latestMessage : Option String
deriving DecidableEq, Repr

/-- The module-load state: both `websocket` and `latestMessage` undefined. -/
def init : State := ⟨none, none⟩

/-- Function `createWebSocket()`: assigns a fresh connecting socket to `websocket`
and installs the `onmessage` handler.  `latestMessage` is untouched. -/
def createWebSocket (s : State) : State :=
  { s with websocket := some ⟨WebSocket.CONNECTING, []⟩ }

/-- The `onmessage` handler installed by `createWebSocket`: stores the
event's data in `latestMessage`, overwriting any previous value. -/
def onmessage (s : State) (d : String) : State :=
  { s with latestMessage := some d }

/-- Delivery of a sequence of inbound messages, each running the
`onmessage` handler in arrival order. -/
def deliverAll (s : State) (ds : List String) : State :=
  ds.foldl onmessage s

/-- Function `readLatestMessage()`: returns the module variable `latestMessage`. -/
def readLatestMessage (s : State) : Option String :=
  s.latestMessage

/-- Function `readLatestMessage()` as a state transformer, making its (absence of)
effect on module state explicit: the body is a single `return`, with no
assignment. -/
def readLatestMessageOp (s : State) : Option String × State :=
  (s.latestMessage, s)

/-- Function `sendPosition(x, y)`: dereferences `websocket` (a `TypeError` when it is
still undefined), returns early when `readyState` is not OPEN, and otherwise
sends `JSON.stringify({ x, y })`. -/
def sendPosition (s : State) (x y : Int) : Except JSError State :=
  match s.websocket with
  | none => .error .typeError
  | some ws =>
      if ws.readyState ≠ WebSocket.OPEN then .ok s
      else (wsSend ws (Frame.text (jsonStringifyXY x y))).map
        (fun ws' => { s with websocket := some ws' })

end Foo

/-! ## Plain variant (`src/unnamed/part_000`, first module)

Same guarded `sendPosition`, but `createWebSocket` installs no handler and
no inbound storage exists. -/

namespace Plain

/-- Module state of the plain variant: only the `websocket` handle. -/
structure State where
  websocket : Option WS
deriving DecidableEq, Repr

/-- The module-load state: `websocket` undefined. -/
def init : State := ⟨none⟩

/-- Function `createWebSocket()`: assigns a fresh connecting socket to `websocket`. -/
def createWebSocket (_ : State) : State :=
  ⟨some ⟨WebSocket.CONNECTING, []⟩⟩

/-- Function `sendPosition(x, y)` of the plain variant, identical in text to the
latest-only one: undefined-handle dereference throws, non-OPEN states
return early, otherwise `JSON.stringify({ x, y })` is sent. -/
def sendPosition (s : State) (x y : Int) : Except JSError State :=
  match s.websocket with
  | none => .error .typeError
  | some ws =>
      if ws.readyState ≠ WebSocket.OPEN then .ok s
      else (wsSend ws (Frame.text (jsonStringifyXY x y))).map
        (fun ws' => State.mk (some ws'))

end Plain

/-! ## Buffering variant (`src/unnamed/part_000`, second module)

Inbound messages are pushed onto `bufferedMessages`; `readMessages`
returns the buffer and resets it to `[]`. -/

namespace Buf

/-- Module state of the buffering variant: the `websocket` handle and the
`bufferedMessages` array (initially `[]`). -/
structure State where
  websocket : Option WS
  bufferedMessages : List String
deriving DecidableEq, Repr

/-- The module-load state: `websocket` undefined, empty buffer. -/
def init : State := ⟨none, []⟩

/-- Function `createWebSocket()`: assigns a fresh connecting socket and installs the
`onmessage` handler.  The buffer is untouched. -/
def createWebSocket (s : State) : State :=
  { s with websocket := some ⟨WebSocket.CONNECTING, []⟩ }

/-- The `onmessage` handler: `bufferedMessages.push(event.data)`, appending
the payload at the end of the buffer. -/
def onmessage (s : State) (d : String) : State :=
  { s with bufferedMessages := s.bufferedMessages ++ [d] }

/-- Function `readMessages()`: returns the current buffer and resets the module
variable to a fresh empty array. -/
def readMessages (s : State) : List String × State :=
  (s.bufferedMessages, { s with bufferedMessages := [] })

/-- Function `sendPosition(x, y)` of the buffering variant, identical in text to the
other guarded ones. -/
def sendPosition (s : State) (x y : Int) : Except JSError State :=
  match s.websocket with
  | none => .error .typeError
  | some ws =>
      if ws.readyState ≠ WebSocket.OPEN then .ok s
      else (wsSend ws (Frame.text (jsonStringifyXY x y))).map
        (fun ws' => { s with websocket := some ws' })

/-- Externally driven events of the buffering module: an inbound message
arriving (running `onmessage`) or a call to `readMessages`. -/
inductive Event where
  | arrive (d : String)
  | readCall
deriving DecidableEq, Repr

/-- One event applied to the state together with the accumulated outputs of
the `readMessages` calls made so far. -/
def stepOut (p : State × List (List String)) (e : Event) : State × List (List String) :=
  match e with
  | .arrive d => (onmessage p.1 d, p.2)
  | .readCall =>
      let r := readMessages p.1
      (r.2, p.2 ++ [r.1])

/-- Run a sequence of events from a start state with no outputs yet. -/
def run (s : State) (es : List Event) : State × List (List String) :=
  es.foldl stepOut (s, [])

/-- The payloads that arrived during a sequence of events, in order. -/
def arrivals (es : List Event) : List String :=
  es.filterMap (fun e => match e with | .arrive d => some d | .readCall => none)

end Buf

/-! ## Token-handshake variant (`src/client/js/foo.js`, second module)

`const exampleSocket = new WebSocket(...)` at module load; `onopen` sends
`genRanHex(8)` as the first action after the connection opens;
`sendPosition` is guarded by `!exampleSocket.OPEN` and passes `send` a raw
`{x, y}` object. -/

namespace Ex

/-- The JS property access `exampleSocket.OPEN`.  `OPEN` is not an own
property of the instance, so the lookup walks the prototype chain and finds
the WebIDL interface constant `OPEN = 1` on `WebSocket.prototype` (WebIDL
constants are exposed on the interface object and on the prototype). -/
def exampleSocketOPEN : Nat := WebSocket.OPEN

/-- The state of the socket at module load: `new WebSocket(...)`, still
connecting, nothing sent. -/
def init : WS := ⟨WebSocket.CONNECTING, []⟩

/-- Function `sendPosition(x, y)` of the token-handshake variant: returns early when
`!exampleSocket.OPEN` holds, otherwise calls `exampleSocket.send({x, y})`
with the raw (unserialized) object. -/
def sendPosition (x y : Int) (s : WS) : Except JSError WS :=
  if !(jsNumTruthy exampleSocketOPEN) then .ok s
  else wsSend s (Frame.rawObject x y)

/-- The callback `sendMessage`: sends the template string
`MESSAGE! ${Math.random()}`; the printed random draw is supplied as
`randStr`. -/
def sendMessage (randStr : String) (s : WS) : Except JSError WS :=
  wsSend s (Frame.text ("MESSAGE! " ++ randStr))

/-- The `onopen` handler: sends this client's identifier, `genRanHex(8)`. -/
def onopen (token : String) (s : WS) : Except JSError WS :=
  wsSend s (Frame.text token)

/-- Externally driven events of the token-handshake module: the connection
completing its handshake (the agent sets `readyState` to OPEN and fires
`onopen`), a caller invoking `sendPosition`, or a caller invoking
`sendMessage`. -/
inductive Event where
  | opened
  | callSendPosition (x y : Int)
  | callSendMessage (randStr : String)
deriving DecidableEq, Repr

/-- An exception raised by a handler or caller propagates out of the module
and leaves the socket state unchanged. -/
def keep (r : Except JSError WS) (s : WS) : WS :=
  match r with
  | .ok s' => s'
  | .error _ => s

/-- One event applied to the socket state.  On `opened`, the user agent
first sets `readyState` to OPEN and then fires the `onopen` handler. -/
def step (token : String) (s : WS) (e : Event) : WS :=
  match e with
  | .opened =>
      let s' := { s with readyState := WebSocket.OPEN }
      keep (onopen token s') s'
  | .callSendPosition x y => keep (sendPosition x y s) s
  | .callSendMessage randStr => keep (sendMessage randStr s) s

/-- Run the module from load through a sequence of events, the `onopen`
token being `genRanHex(8)` over the given random draws. -/
def run (draws : Nat → Nat) (es : List Event) : WS :=
  es.foldl (step (genRanHex 8 draws)) init

end Ex

/-! ## Helper lemmas -/

/-- The characters of a joined list of strings are the joined character
lists. -/
theorem string_join_data (l : List String) :
    (String.join l).data = (l.map String.data).flatten := by
  suffices h : ∀ (l : List String) (a : String),
      (l.foldl (fun r s => r ++ s) a).data = a.data ++ (l.map String.data).flatten by
    simp [h l ""]
  intro l
  induction l with
  | nil => simp
  | cons x xs ih => intro a; simp [ih, String.data_append]

/-- Joining singleton lists recovers the mapped list. -/
theorem join_map_singleton {α β : Type} (f : α → β) (l : List α) :
    (l.map (fun i => [f i])).flatten = l.map f := by
  induction l with
  | nil => rfl
  | cons x xs ih => simp [ih]

/-- The characters of `genRanHex size draws` are the hex digits of the
first `size` draws, in order. -/
theorem genRanHex_data (size : Nat) (draws : Nat → Nat) :
    (genRanHex size draws).data = (List.range size).map (fun i => toHexChar (draws i)) := by
  simp only [genRanHex, string_join_data, List.map_map]
  exact join_map_singleton (fun i => toHexChar (draws i)) (List.range size)

/-- Every hex digit of a draw below 16 is a lowercase hexadecimal
character. -/
theorem toHexChar_lower_hex : ∀ n < 16, isLowerHexDigit (toHexChar n) = true := by
  decide

/-- After delivering a list of messages, the buffer of the buffering
variant is the old buffer extended, in arrival order. -/
theorem buf_deliver_append (ms : List String) (s : Buf.State) :
    (ms.foldl Buf.onmessage s).bufferedMessages = s.bufferedMessages ++ ms := by
  induction ms generalizing s with
  | nil => simp
  | cons d ds ih => simp [ih, Buf.onmessage]

/-- Running the buffering module preserves the partition invariant: the
concatenation of all `readMessages` outputs followed by the residual buffer
equals the prior contents followed by the arrivals, in order. -/
theorem buf_run_partition (es : List Buf.Event) (p : Buf.State × List (List String)) :
    (es.foldl Buf.stepOut p).2.flatten ++ (es.foldl Buf.stepOut p).1.bufferedMessages =
      p.2.flatten ++ p.1.bufferedMessages ++ Buf.arrivals es := by
  induction es generalizing p with
  | nil => simp [Buf.arrivals]
  | cons e es ih =>
      cases e with
      | arrive d => simp [Buf.stepOut, Buf.onmessage, Buf.arrivals, ih]
      | readCall => simp [Buf.stepOut, Buf.readMessages, Buf.arrivals, ih]

/-- The reachable-state invariant of the token-handshake module: while
connecting nothing has been sent; once open, the first transmitted frame is
the token. -/
def exInv (token : String) (s : WS) : Prop :=
  (s.readyState = WebSocket.CONNECTING ∧ s.sent = []) ∨
  (s.readyState = WebSocket.OPEN ∧ s.sent.head? = some (Frame.text token))

/-- Every event of the token-handshake module preserves `exInv`. -/
theorem exInv_step (token : String) (s : WS) (e : Ex.Event) (h : exInv token s) :
    exInv token (Ex.step token s e) := by
  cases e with
  | opened =>
      rcases h with ⟨_, h2⟩ | ⟨_, h2⟩ <;>
        · right
          simp_all [Ex.step, Ex.onopen, Ex.keep, wsSend, WebSocket.CONNECTING,
            WebSocket.OPEN, List.head?_append]
  | callSendPosition x y =>
      rcases h with ⟨h1, h2⟩ | ⟨h1, h2⟩
      · left
        simp_all [Ex.step, Ex.sendPosition, Ex.exampleSocketOPEN, jsNumTruthy,
          WebSocket.OPEN, Ex.keep, wsSend, WebSocket.CONNECTING]
      · right
        simp_all [Ex.step, Ex.sendPosition, Ex.exampleSocketOPEN, jsNumTruthy,
          WebSocket.OPEN, Ex.keep, wsSend, WebSocket.CONNECTING, List.head?_append]
  | callSendMessage r =>
      rcases h with ⟨h1, h2⟩ | ⟨h1, h2⟩
      · left
        simp_all [Ex.step, Ex.sendMessage, Ex.keep, wsSend, WebSocket.CONNECTING,
          WebSocket.OPEN]
      · right
        simp_all [Ex.step, Ex.sendMessage, Ex.keep, wsSend, WebSocket.CONNECTING,
          WebSocket.OPEN, List.head?_append]

/-- Every state reachable by the token-handshake module satisfies
`exInv`. -/
theorem exInv_run (draws : Nat → Nat) (es : List Ex.Event) :
    exInv (genRanHex 8 draws) (Ex.run draws es) := by
  suffices h : ∀ (es : List Ex.Event) (s : WS), exInv (genRanHex 8 draws) s →
      exInv (genRanHex 8 draws) (es.foldl (Ex.step (genRanHex 8 draws)) s) by
    exact h es Ex.init (Or.inl ⟨rfl, rfl⟩)
  intro es
  induction es with
  | nil => intro s hs; exact hs
  | cons e es ih => intro s hs; exact ih _ (exInv_step _ s e hs)

/-! ## Claim theorems -/

/-- C1: in every variant that guards `sendPosition` with a `readyState`
check (the latest-only, plain and buffering variants), no send occurs
before the channel reports open: whenever the connection's `readyState` is
not OPEN, `sendPosition(x, y)` returns with the module state — in
particular the list of transmitted frames — unchanged. -/
theorem c1_guarded_no_send_when_not_open (ws : WS) (lm : Option String)
    (buf : List String) (x y : Int) (h : ws.readyState ≠ WebSocket.OPEN) :
    Foo.sendPosition ⟨some ws, lm⟩ x y = .ok ⟨some ws, lm⟩ ∧
    Plain.sendPosition ⟨some ws⟩ x y = .ok ⟨some ws⟩ ∧
    Buf.sendPosition ⟨some ws, buf⟩ x y = .ok ⟨some ws, buf⟩ := by
  refine ⟨?_, ?_, ?_⟩ <;>
    simp [Foo.sendPosition, Plain.sendPosition, Buf.sendPosition, h]

/-- Witness for C1 at a closed connection (`readyState = CLOSED`). -/
theorem c1_guarded_no_send_when_not_open_witness :
    (WS.mk WebSocket.CLOSED []).readyState ≠ WebSocket.OPEN ∧
    (Foo.sendPosition ⟨some ⟨WebSocket.CLOSED, []⟩, none⟩ 0 0 =
        .ok ⟨some ⟨WebSocket.CLOSED, []⟩, none⟩ ∧
      Plain.sendPosition ⟨some ⟨WebSocket.CLOSED, []⟩⟩ 0 0 =
        .ok ⟨some ⟨WebSocket.CLOSED, []⟩⟩ ∧
      Buf.sendPosition ⟨some ⟨WebSocket.CLOSED, []⟩, []⟩ 0 0 =
        .ok ⟨some ⟨WebSocket.CLOSED, []⟩, []⟩) :=
  ⟨by decide,
    c1_guarded_no_send_when_not_open ⟨WebSocket.CLOSED, []⟩ none [] 0 0 (by decide)⟩

/-- C2 counterexample: the claim "for every x, y and every connection
state, the token-handshake `sendPosition(x, y)` sends nothing" is false on
an open connection: `sendPosition(1, 2)` transmits the raw `{x, y}` object
frame.  The guard `!exampleSocket.OPEN` negates the inherited WebIDL
interface constant `OPEN = 1`, a truthy value, so it never suppresses. -/
theorem c2_always_suppresses_counterexample :
    Ex.sendPosition 1 2 ⟨WebSocket.OPEN, []⟩ =
      .ok ⟨WebSocket.OPEN, [Frame.rawObject 1 2]⟩ :=
  rfl

/-- C2 amended: the readiness guard of the token-handshake `sendPosition`
checks `exampleSocket.OPEN`, which resolves through the prototype to the
interface constant `OPEN = 1`; being truthy, its negation never holds, so
the guard suppresses nothing: for every x, y and connection state,
`sendPosition(x, y)` behaves exactly like the unguarded
`exampleSocket.send({x, y})`. -/
theorem c2_guard_never_suppresses (x y : Int) (s : WS) :
    Ex.sendPosition x y s = wsSend s (Frame.rawObject x y) := by
  simp [Ex.sendPosition, Ex.exampleSocketOPEN, jsNumTruthy, WebSocket.OPEN]

/-- C3: the buffering variant preserves arrival order and empties its store
exactly once per read call.  `readMessages` returns the whole buffer and
resets it; a second read with no intervening arrival returns `[]`; a read
after delivering `ms` onto an emptied buffer returns exactly `ms` in
arrival order; and over any event sequence the concatenation of all read
outputs followed by the residual buffer is exactly the arrivals in order,
so every inbound message is returned by exactly one read call. -/
theorem c3_buffering_order_and_reset :
    (∀ s : Buf.State,
      Buf.readMessages s = (s.bufferedMessages, { s with bufferedMessages := [] })) ∧
    (∀ s : Buf.State, (Buf.readMessages (Buf.readMessages s).2).1 = []) ∧
    (∀ (s : Buf.State) (ms : List String),
      (Buf.readMessages (ms.foldl Buf.onmessage (Buf.readMessages s).2)).1 = ms) ∧
    (∀ (s : Buf.State) (es : List Buf.Event),
      (Buf.run s es).2.flatten ++ (Buf.run s es).1.bufferedMessages =
        s.bufferedMessages ++ Buf.arrivals es) := by
  refine ⟨fun s => rfl, fun s => rfl, fun s ms => ?_, fun s es => ?_⟩
  · simp [Buf.readMessages, buf_deliver_append]
  · simpa [Buf.run] using buf_run_partition es (s, [])

/-- C4: the generated token is exactly 8 lowercase hexadecimal characters:
for draws of `Math.floor(Math.random() * 16)` (each below 16),
`genRanHex(8)` has length 8 and every character is one of `0`-`9` or
`a`-`f`. -/
theorem c4_genRanHex_eight_lower_hex (draws : Nat → Nat)
    (h : ∀ i, draws i < 16) :
    (genRanHex 8 draws).length = 8 ∧
    ∀ c ∈ (genRanHex 8 draws).data, isLowerHexDigit c = true := by
  constructor
  · simp [String.length, genRanHex_data]
  · intro c hc
    rw [genRanHex_data] at hc
    rcases List.mem_map.mp hc with ⟨i, _, rfl⟩
    exact toHexChar_lower_hex (draws i) (h i)

/-- Witness for C4 with all draws zero. -/
theorem c4_genRanHex_eight_lower_hex_witness :
    (∀ i : Nat, (fun _ => 0) i < 16) ∧
    ((genRanHex 8 (fun _ => 0)).length = 8 ∧
      ∀ c ∈ (genRanHex 8 (fun _ => 0)).data, isLowerHexDigit c = true) :=
  ⟨fun _ => show (0 : Nat) < 16 by decide,
    c4_genRanHex_eight_lower_hex (fun _ => 0) (fun _ => show (0 : Nat) < 16 by decide)⟩

/-- C5: in the token-handshake variant the token is the first frame sent on
the connection: the `onopen` handler emits `genRanHex(8)`, and in every
reachable state of the module, if anything has been transmitted then the
first transmitted frame is that token — no position frame precedes it. -/
theorem c5_token_first_frame (draws : Nat → Nat) (es : List Ex.Event)
    (h : (Ex.run draws es).sent ≠ []) :
    (Ex.run draws es).sent.head? = some (Frame.text (genRanHex 8 draws)) := by
  rcases exInv_run draws es with ⟨_, h2⟩ | ⟨_, h2⟩
  · exact absurd h2 h
  · exact h2

/-- Witness for C5: after the open event alone, one frame has been sent and
it is the token. -/
theorem c5_token_first_frame_witness :
    (Ex.run (fun _ => 0) [Ex.Event.opened]).sent ≠ [] ∧
    (Ex.run (fun _ => 0) [Ex.Event.opened]).sent.head? =
      some (Frame.text (genRanHex 8 (fun _ => 0))) :=
  ⟨by decide, c5_token_first_frame (fun _ => 0) [Ex.Event.opened] (by decide)⟩

/-- C6: the latest-only variant always reflects the most recent arrival and
is overwritten, not appended: after any sequence of inbound messages ending
with `m`, from any module state, `readLatestMessage` returns exactly
`some m`. -/
theorem c6_latest_only_most_recent (s : Foo.State) (ms : List String) (m : String) :
    Foo.readLatestMessage (Foo.deliverAll s (ms ++ [m])) = some m := by
  simp [Foo.deliverAll, Foo.onmessage, Foo.readLatestMessage]

/-- C7: outbound position frames are the JSON strings
`JSON.stringify({x, y})` in the three readyState-guarded variants, while
the token-handshake variant instead passes `send` the raw unserialized
`{x, y}` object. -/
theorem c7_wire_shape (ws : WS) (lm : Option String) (buf : List String)
    (x y : Int) (h : ws.readyState = WebSocket.OPEN) :
    Foo.sendPosition ⟨some ws, lm⟩ x y =
      .ok ⟨some { ws with sent := ws.sent ++ [Frame.text (jsonStringifyXY x y)] }, lm⟩ ∧
    Plain.sendPosition ⟨some ws⟩ x y =
      .ok ⟨some { ws with sent := ws.sent ++ [Frame.text (jsonStringifyXY x y)] }⟩ ∧
    Buf.sendPosition ⟨some ws, buf⟩ x y =
      .ok ⟨some { ws with sent := ws.sent ++ [Frame.text (jsonStringifyXY x y)] }, buf⟩ ∧
    Ex.sendPosition x y ws =
      .ok { ws with sent := ws.sent ++ [Frame.rawObject x y] } := by
  refine ⟨?_, ?_, ?_, ?_⟩ <;>
    simp [Foo.sendPosition, Plain.sendPosition, Buf.sendPosition, Ex.sendPosition,
      Ex.exampleSocketOPEN, jsNumTruthy, wsSend, h, WebSocket.OPEN, WebSocket.CONNECTING,
      Except.map]

/-- Witness for C7 on an open connection with an empty transmission
history. -/
theorem c7_wire_shape_witness :
    (WS.mk WebSocket.OPEN []).readyState = WebSocket.OPEN ∧
    (Foo.sendPosition ⟨some ⟨WebSocket.OPEN, []⟩, none⟩ 3 4 =
        .ok ⟨some ⟨WebSocket.OPEN, [Frame.text (jsonStringifyXY 3 4)]⟩, none⟩ ∧
      Plain.sendPosition ⟨some ⟨WebSocket.OPEN, []⟩⟩ 3 4 =
        .ok ⟨some ⟨WebSocket.OPEN, [Frame.text (jsonStringifyXY 3 4)]⟩⟩ ∧
      Buf.sendPosition ⟨some ⟨WebSocket.OPEN, []⟩, []⟩ 3 4 =
        .ok ⟨some ⟨WebSocket.OPEN, [Frame.text (jsonStringifyXY 3 4)]⟩, []⟩ ∧
      Ex.sendPosition 3 4 ⟨WebSocket.OPEN, []⟩ =
        .ok ⟨WebSocket.OPEN, [Frame.rawObject 3 4]⟩) :=
  ⟨rfl, by
    have h := c7_wire_shape ⟨WebSocket.OPEN, []⟩ none [] 3 4 rfl
    simpa using h⟩

/-- C8: in the variants using the module-level `websocket` handle, calling
`sendPosition` before `createWebSocket` has ever been called throws a
`TypeError` (the `readyState` access dereferences the undefined handle)
rather than silently returning. -/
theorem c8_send_before_create_throws (x y : Int) :
    Foo.sendPosition Foo.init x y = .error .typeError ∧
    Plain.sendPosition Plain.init x y = .error .typeError ∧
    Buf.sendPosition Buf.init x y = .error .typeError :=
  ⟨rfl, rfl, rfl⟩

/-- C9: in the latest-only variant, `readLatestMessage` returns undefined
(`none`) when called before any inbound message has arrived, both at module
load and right after `createWebSocket`. -/
theorem c9_read_latest_initially_undefined :
    Foo.readLatestMessage Foo.init = none ∧
    Foo.readLatestMessage (Foo.createWebSocket Foo.init) = none :=
  ⟨rfl, rfl⟩

/-- C10: `readLatestMessage` is a non-destructive read: it leaves the
module state unchanged, so repeated calls with no intervening inbound
message return the same value. -/
theorem c10_read_latest_nondestructive (s : Foo.State) :
    (Foo.readLatestMessageOp s).2 = s ∧
    (Foo.readLatestMessageOp (Foo.readLatestMessageOp s).2).1 =
      (Foo.readLatestMessageOp s).1 :=
  ⟨rfl, rfl⟩

end BevyWasm
